import Mathlib

/-!
Verification development for the sallyport request/response channel.

This file gives a shallow embedding of the parts of the crate that the
properties below concern: the host dispatcher (`src/v2/src/host/syscall.rs`),
the staged-syscall commit path (`src/v2/src/guest/alloc/syscall.rs`), the
guest stubs (`src/v2/src/guest/syscall/stub.rs`), the clock_gettime collect
rule (`src/v2/src/guest/syscall/clock_gettime.rs`) and the SEV secret CBOR
length peek (`src/boot/vm.rs`).

Machine integers (Rust `usize`/`u64`) are modelled as `Nat` with an explicit
`% 2 ^ 64` exactly where the Rust arithmetic can wrap in a release build;
pointers are modelled as `base + offset` naturals, where `base` is the
address of the first byte of the payload slice handed to the host; fallible
Rust functions returning `Result<T>` become `Except Nat T` carrying the
numeric errno.
-/

/-- Errno `EAGAIN` (value taken from the crate's libc table). -/
def EAGAIN : Nat := 11

/-- Errno `EFAULT`. -/
def EFAULT : Nat := 14

/-- Errno `EINVAL`. -/
def EINVAL : Nat := 22

/-- Errno `ENOSYS`. -/
def ENOSYS : Nat := 38

/-- Errno `EBADFD`. -/
def EBADFD : Nat := 77

/-- Modelled from the spec: the crate-level `NULL` offset sentinel (the v2
crate root that defines it is not among the provided sources); §4.D of the
spec states that `src_addr_off = NULL` "(0)" marks an absent pointer. -/
def NULL : Nat := 0

/-- Number of bytes in a machine word (`size_of::<usize>()` on x86_64). -/
def wordSize : Nat := 8

/-- Host-side bounds validation, from `deref<T>` in `host/syscall.rs`:
computes `size = len * size_of::<T>()` (usize arithmetic, hence the
`% 2 ^ 64`), rejects with `EFAULT` when `size > data.len()` or
`data.len() - size < offset` (the subtraction is only evaluated after the
first disjunct failed, so it never wraps), and otherwise returns the offset
of the first element (the Rust code returns `data[offset..offset+size].as_mut_ptr()`,
i.e. the pointer `base + offset`). `sizeT` stands for `size_of::<T>()` and
`dataLen` for `data.len()`. -/
def deref (sizeT dataLen offset len : Nat) : Except Nat Nat :=
  let size := (len * sizeT) % 2 ^ 64
  if size > dataLen ∨ dataLen - size < offset then Except.error EFAULT
  else Except.ok offset

/-- Little-endian (x86_64 native) read of a `socklen_t` (`u32`) stored in the
payload bytes at `off`; bytes outside the slice read as `0` and each byte is
reduced `% 256` (the model stores bytes as arbitrary naturals). -/
def readLE32 (data : List Nat) (off : Nat) : Nat :=
  data.getD off 0 % 256 + data.getD (off + 1) 0 % 256 * 256 +
    data.getD (off + 2) 0 % 256 * 65536 + data.getD (off + 3) 0 % 256 * 16777216

/-- Embedding of `deref_sockaddr_output` from `host/syscall.rs`: validates the
`addrlen : socklen_t` slot (size 4, alignment 4), reads its value from the
payload, then validates `*addrlen` bytes at `addr_offset`, requiring the
address pointer to be `sockaddr_storage`-aligned (alignment 8). Pointer
alignment `p.align_offset(a) == 0` is modelled as `(base + offset) % a = 0`.
Returns the pair of validated offsets. -/
def deref_sockaddr_output (base : Nat) (data : List Nat) (addrOff alenOff : Nat) :
    Except Nat (Nat × Nat) :=
  match deref 4 data.length alenOff 1 with
  | Except.error e => Except.error e
  | Except.ok alen =>
    if (base + alen) % 4 ≠ 0 then Except.error EFAULT
    else
      match deref 1 data.length addrOff (readLE32 data alenOff) with
      | Except.error e => Except.error e
      | Except.ok addr =>
        if (base + addr) % 8 ≠ 0 then Except.error EFAULT
        else Except.ok (addr, alen)

/-- One syscall item as the host dispatcher pattern-matches it: the syscall
number and the six argv words (`item::Syscall` payload, return words are
written only by the executed syscall itself). -/
structure SyscallItem where
  num : Nat
  a0 : Nat
  a1 : Nat
  a2 : Nat
  a3 : Nat
  a4 : Nat
  a5 : Nat
deriving DecidableEq

/-- The OS invocation the dispatcher performs via its inline-assembly
wrappers: the syscall number and the (pointer-resolved) argument registers.
The embedding returns this description instead of running the kernel; an
`Except.error` result therefore means the dispatcher rejected the item
before any OS syscall was invoked and before any return word was written. -/
structure Invocation where
  num : Nat
  args : List Nat
deriving DecidableEq

/-- Syscall numbers routed by the host dispatcher (x86_64 Linux numbers, in
the textual order of the match arms of `execute_syscall`): accept, accept4,
bind, clock_gettime, close, connect, dup, dup2, dup3, epoll_create1,
epoll_ctl, epoll_pwait, epoll_wait, eventfd2, exit, exit_group, fcntl,
getsockname, listen, read, recvfrom, setsockopt, socket, sync, write. -/
def routedNums : List Nat :=
  [43, 288, 49, 228, 3, 42, 32, 33, 292, 291, 233, 281, 232, 290, 60, 231,
   72, 51, 50, 0, 45, 54, 41, 162, 1]

/-- Embedding of `execute_syscall` from `host/syscall.rs`. `base` is the
address of `data[0]` (used for the pointer alignment checks, which the Rust
code performs on materialised pointers), `data` the payload byte slice.
Referent sizes and alignments are the x86_64 libc values:
`timespec` 16/8, `epoll_event` 12/1 (the struct is `repr(packed)` on
x86_64, so `align_of::<epoll_event>() = 1`), `sigset_t` 128/8,
`socklen_t` 4/4, `sockaddr_storage` alignment 8, `usize` alignment 8. -/
def execute_syscall (base : Nat) (data : List Nat) (s : SyscallItem) :
    Except Nat Invocation :=
  if s.num = 43 then
    if s.a1 = NULL then Except.ok ⟨43, [s.a0, 0, 0]⟩
    else
      match deref_sockaddr_output base data s.a1 s.a2 with
      | Except.error e => Except.error e
      | Except.ok (addr, alen) => Except.ok ⟨43, [s.a0, base + addr, base + alen]⟩
  else if s.num = 288 then
    if s.a1 = NULL then Except.ok ⟨288, [s.a0, 0, 0, s.a3]⟩
    else
      match deref_sockaddr_output base data s.a1 s.a2 with
      | Except.error e => Except.error e
      | Except.ok (addr, alen) =>
        Except.ok ⟨288, [s.a0, base + addr, base + alen, s.a3]⟩
  else if s.num = 49 then
    match deref 1 data.length s.a1 s.a2 with
    | Except.error e => Except.error e
    | Except.ok addr => Except.ok ⟨49, [s.a0, base + addr, s.a2]⟩
  else if s.num = 228 then
    match deref 16 data.length s.a1 1 with
    | Except.error e => Except.error e
    | Except.ok tp =>
      if (base + tp) % 8 ≠ 0 then Except.error EFAULT
      else Except.ok ⟨228, [s.a0, base + tp]⟩
  else if s.num = 3 then Except.ok ⟨3, [s.a0]⟩
  else if s.num = 42 then
    match deref 1 data.length s.a1 s.a2 with
    | Except.error e => Except.error e
    | Except.ok addr => Except.ok ⟨42, [s.a0, base + addr, s.a2]⟩
  else if s.num = 32 then Except.ok ⟨32, [s.a0]⟩
  else if s.num = 33 then Except.ok ⟨33, [s.a0, s.a1]⟩
  else if s.num = 292 then Except.ok ⟨292, [s.a0, s.a1, s.a2]⟩
  else if s.num = 291 then Except.ok ⟨291, [s.a0]⟩
  else if s.num = 233 then
    match deref 12 data.length s.a3 1 with
    | Except.error e => Except.error e
    | Except.ok ev =>
      if (base + ev) % 1 ≠ 0 then Except.error EFAULT
      else Except.ok ⟨233, [s.a0, s.a1, s.a2, base + ev]⟩
  else if s.num = 281 then
    match deref 12 data.length s.a1 s.a2 with
    | Except.error e => Except.error e
    | Except.ok evs =>
      if (base + evs) % 1 ≠ 0 then Except.error EFAULT
      else
        match deref 128 data.length s.a4 1 with
        | Except.error e => Except.error e
        | Except.ok sm =>
          if (base + sm) % 8 ≠ 0 then Except.error EFAULT
          else Except.ok ⟨281, [s.a0, base + evs, s.a2, s.a3, base + sm]⟩
  else if s.num = 232 then
    match deref 12 data.length s.a1 s.a2 with
    | Except.error e => Except.error e
    | Except.ok evs =>
      if (base + evs) % 1 ≠ 0 then Except.error EFAULT
      else Except.ok ⟨232, [s.a0, base + evs, s.a2, s.a3]⟩
  else if s.num = 290 then Except.ok ⟨290, [s.a0, s.a1]⟩
  else if s.num = 60 then Except.ok ⟨60, [s.a0]⟩
  else if s.num = 231 then Except.ok ⟨231, [s.a0]⟩
  else if s.num = 72 then Except.ok ⟨72, [s.a0, s.a1, s.a2]⟩
  else if s.num = 51 then
    match deref_sockaddr_output base data s.a1 s.a2 with
    | Except.error e => Except.error e
    | Except.ok (addr, alen) => Except.ok ⟨51, [s.a0, base + addr, base + alen]⟩
  else if s.num = 50 then Except.ok ⟨50, [s.a0, s.a1]⟩
  else if s.num = 0 then
    match deref 1 data.length s.a1 s.a2 with
    | Except.error e => Except.error e
    | Except.ok buf => Except.ok ⟨0, [s.a0, base + buf, s.a2]⟩
  else if s.num = 45 then
    match deref 1 data.length s.a1 s.a2 with
    | Except.error e => Except.error e
    | Except.ok buf =>
      if s.a4 = NULL then Except.ok ⟨45, [s.a0, base + buf, s.a2, s.a3, 0, 0]⟩
      else
        match deref_sockaddr_output base data s.a4 s.a5 with
        | Except.error e => Except.error e
        | Except.ok (sa, alen) =>
          Except.ok ⟨45, [s.a0, base + buf, s.a2, s.a3, base + sa, base + alen]⟩
  else if s.num = 54 then
    if s.a3 = NULL then Except.ok ⟨54, [s.a0, s.a1, s.a2, 0, 0]⟩
    else
      match deref 1 data.length s.a3 s.a4 with
      | Except.error e => Except.error e
      | Except.ok ov =>
        if (base + ov) % 8 ≠ 0 then Except.error EFAULT
        else Except.ok ⟨54, [s.a0, s.a1, s.a2, base + ov, s.a4]⟩
  else if s.num = 41 then Except.ok ⟨41, [s.a0, s.a1, s.a2]⟩
  else if s.num = 162 then Except.ok ⟨162, []⟩
  else if s.num = 1 then
    match deref 1 data.length s.a1 s.a2 with
    | Except.error e => Except.error e
    | Except.ok buf => Except.ok ⟨1, [s.a0, base + buf, s.a2]⟩
  else Except.error ENOSYS

/-- Item kind tags from `item/mod.rs` (`End = 0x00`, `Syscall = 0x01`,
`Gdbcall = 0x02`). -/
inductive Kind where
  | End
  | Syscall
  | Gdbcall
deriving DecidableEq

/-- Item header from `item/mod.rs`: payload byte count and kind. -/
structure Header where
  size : Nat
  kind : Kind
deriving DecidableEq

/-- Modelled from the spec: byte size of the `item::Syscall` payload
`{ num: word, argv[6]: word, ret[2]: word }` (the v2 `item::Payload` struct
definition is not among the provided sources) — nine 8-byte words. -/
def syscallPayloadSize : Nat := 72

/-- Staged-size computation of `Stage::stage` for `StagedSyscall` in
`guest/alloc/syscall.rs`: the byte count consumed by the syscall's payload
section, padded (only when non-zero) up to `align_of::<usize>() = 8` by
allocating a trailing pad. -/
def stagePaddedSize (sectionSize : Nat) : Nat :=
  if sectionSize > 0 then
    let reminder := sectionSize % wordSize
    if reminder > 0 then sectionSize + (wordSize - reminder) else sectionSize
  else sectionSize

/-- Values `Commit::commit` for `StagedSyscall` writes into the header zone,
in write order: the header, the syscall number, the six argv words, and the
two return words. -/
structure SyscallHeaderZone where
  header : Header
  num : Nat
  argv : List Nat
  ret : List Nat
deriving DecidableEq

/-- Embedding of `Commit::commit` for `StagedSyscall` in
`guest/alloc/syscall.rs`: writes `Header { size: size_of::<item::Syscall>()
+ staged_size, kind: Kind::Syscall }`, then `T::NUM`, the staged argv, and
`[-ENOSYS as usize, 0]` (`-38` as a 64-bit usize is `2 ^ 64 - 38`). The
individual `copy_from` writes of the allocator (whose module is not among
the provided sources) are modelled as the record fields, in write order. -/
def commitStagedSyscall (num : Nat) (argv : List Nat) (stagedSize : Nat) :
    SyscallHeaderZone :=
  { header := { size := syscallPayloadSize + stagedSize, kind := Kind.Syscall }
    num := num
    argv := argv
    ret := [2 ^ 64 - ENOSYS, 0] }

/-- Chunk-filling loop of `Stub::collect` for `Getrandom` in
`guest/syscall/stub.rs`. `rng` is the stream of `_rdrand64_step` outcomes:
`none` for a not-ready RNG, `some v` for success with the 8 bytes of the
drawn word (native-endian). `i` is the chunk index of `chunks_mut(8)`;
chunk `i` exists iff `8 * i < bufLen` and has length `min 8 (bufLen - 8*i)`.
The result is `none` when the modelled RNG stream runs out before the loop
finishes, and otherwise carries the Rust return value together with the
bytes written into the caller's buffer, in order. -/
def grAux (bufLen flags : Nat) : List (Option (List Nat)) → Nat →
    Option (Except Nat Nat × List Nat)
  | [], i => if 8 * i < bufLen then none else some (Except.ok bufLen, [])
  | Option.none :: rest, i =>
    if 8 * i < bufLen then
      if flags &&& 1 ≠ 0 then some (Except.error EAGAIN, [])
      else if flags &&& 2 ≠ 0 then some (Except.ok (8 * i), [])
      else grAux bufLen flags rest i
    else some (Except.ok bufLen, [])
  | Option.some v :: rest, i =>
    if 8 * i < bufLen then
      match grAux bufLen flags rest (i + 1) with
      | none => none
      | some (r, w) => some (r, v.take (min 8 (bufLen - 8 * i)) ++ w)
    else some (Except.ok bufLen, [])

/-- Embedding of `Stub::collect` for `Getrandom`: rejects flag bits outside
`GRND_NONBLOCK | GRND_RANDOM = 3` with `EINVAL` (`flags` is a `u32`, so the
mask `!3` is `0xFFFFFFFC`), then runs the per-chunk loop. -/
def getrandom_collect (rng : List (Option (List Nat))) (bufLen flags : Nat) :
    Option (Except Nat Nat × List Nat) :=
  if flags &&& 0xFFFFFFFC ≠ 0 then some (Except.error EINVAL, [])
  else grAux bufLen flags rng 0

/-- Linux `stat` record restricted to the fields `Stub::collect` for `Fstat`
assigns; `mem::zeroed()` makes every other field zero, so omitting them
loses nothing. -/
structure Stat where
  st_dev : Nat
  st_ino : Nat
  st_mode : Nat
  st_nlink : Nat
  st_uid : Nat
  st_gid : Nat
  st_rdev : Nat
  st_size : Nat
  st_blksize : Nat
  st_blocks : Nat
  st_atime : Nat
  st_atime_nsec : Nat
  st_mtime : Nat
  st_mtime_nsec : Nat
  st_ctime : Nat
  st_ctime_nsec : Nat
deriving DecidableEq

/-- The `makedev` helper defined inside `Stub::collect` for `Fstat`. -/
def makedev (x y : Nat) : Nat :=
  (x &&& 0xfffff000) <<< 32 ||| (x &&& 0xfff) <<< 8 |||
    (y &&& 0xffffff00) <<< 12 ||| (y &&& 0xff)

/-- The synthetic FIFO stat record the fstat stub fabricates for the three
standard descriptors (`S_IFIFO = 4096`, mode `S_IFIFO | 0o600`). -/
def syntheticStat (fd : Int) : Stat :=
  { st_dev := makedev 0 (if fd = 0 then 0x19 else 0xc)
    st_ino := 3
    st_mode := 4096 ||| 0o600
    st_nlink := 1
    st_uid := 1000
    st_gid := 5
    st_rdev := makedev 0x88 0
    st_size := 0
    st_blksize := 4096
    st_blocks := 0
    st_atime := 1579507218
    st_atime_nsec := 0
    st_mtime := 1579507218
    st_mtime_nsec := 0
    st_ctime := 1579507218
    st_ctime_nsec := 0 }

/-- Embedding of `Stub::collect` for `Fstat` in `guest/syscall/stub.rs`: for
`STDIN_FILENO | STDOUT_FILENO | STDERR_FILENO` (0, 1, 2) overwrite the
caller's statbuf with the synthetic record and return `Ok(())`; otherwise
return `Err(EBADFD)` leaving the statbuf as it was. Being a `Stub`, this
never stages anything into the block, so the host never sees the call. -/
def fstat_collect (fd : Int) (statbuf : Stat) : Except Nat Unit × Stat :=
  if fd = 0 ∨ fd = 1 ∨ fd = 2 then (Except.ok (), syntheticStat fd)
  else (Except.error EBADFD, statbuf)

/-- Maximum size of the injected SEV secret, `bytes!(16; KiB)`. -/
def SEV_SECRET_MAX_SIZE : Nat := 16384

/-- Embedding of `SevSecret::cbor_len` from `boot/vm.rs`. `d i` is the byte
at offset `i` of the secret blob (reduced `% 256`, since the model stores
bytes as arbitrary naturals). Rejects a prefix whose CBOR major type
(`prefix >> 5`) is not BYTES (2); decodes minors `0..=23` inline and minors
`24..=27` as a big-endian length field of 1, 2, 4 or 8 bytes; minors
`28..=31` are invalid. In the minor-27 arm the Rust sum
`1 + 8 + (u64 as usize)` is `usize` arithmetic and can wrap, hence the
explicit `% 2 ^ 64`; the narrower arms cannot wrap. -/
def cbor_len (d : Nat → Nat) : Option Nat :=
  let pfx := d 0 % 256
  if pfx / 32 ≠ 2 then none
  else
    let minor := pfx % 32
    if minor ≤ 23 then some (1 + minor)
    else if minor = 24 then some (1 + 1 + d 1 % 256)
    else if minor = 25 then some (1 + 2 + (d 1 % 256 * 256 + d 2 % 256))
    else if minor = 26 then
      some (1 + 4 + (d 1 % 256 * 2 ^ 24 + d 2 % 256 * 2 ^ 16 +
        d 3 % 256 * 2 ^ 8 + d 4 % 256))
    else if minor = 27 then
      some ((1 + 8 + (d 1 % 256 * 2 ^ 56 + d 2 % 256 * 2 ^ 48 +
        d 3 % 256 * 2 ^ 40 + d 4 % 256 * 2 ^ 32 + d 5 % 256 * 2 ^ 24 +
        d 6 % 256 * 2 ^ 16 + d 7 % 256 * 2 ^ 8 + d 8 % 256)) % 2 ^ 64)
    else none

/-- Embedding of `SevSecret::try_len`: the CBOR-decoded length filtered to at
most `SEV_SECRET_MAX_SIZE`. -/
def try_len (d : Nat → Nat) : Option Nat :=
  match cbor_len d with
  | some n => if n ≤ SEV_SECRET_MAX_SIZE then some n else none
  | none => none

/-- The `timespec` referent of clock_gettime (two 64-bit fields). -/
structure Timespec where
  tv_sec : Int
  tv_nsec : Int
deriving DecidableEq

/-- Embedding of `Syscall::collect` for `ClockGettime` in
`guest/syscall/clock_gettime.rs`: when the host result is `Ok`, the staged
`Output` is collected — modelled from the spec: "Out region is `timespec`;
collect copies it back" (the `Output::collect` definition lives in the
allocator module, which is not among the provided sources) — overwriting
the caller's timespec with the block's; on error the caller's timespec is
untouched and the result is returned as-is. `blockTp` is the timespec the
host wrote into the block, `callerTp` the caller's buffer. -/
def clock_gettime_collect (blockTp callerTp : Timespec) (ret : Except Nat Unit) :
    Except Nat Unit × Timespec :=
  match ret with
  | Except.ok _ => (Except.ok (), blockTp)
  | Except.error e => (Except.error e, callerTp)

/-- Concrete SEV secret content: CBOR BYTES major with minor 27 and the
big-endian 8-byte length field `0xFFFFFFFFFFFFFFFB = 2 ^ 64 - 5`
(byte 0 is `0x5B = 2 * 32 + 27`). -/
def secretCex : Nat → Nat := fun i =>
  if i = 0 then 91 else if i ≤ 7 then 255 else if i = 8 then 251 else 0

theorem stagePaddedSize_eq (s : Nat) : stagePaddedSize s = 8 * ((s + 7) / 8) := by
  simp only [stagePaddedSize, wordSize]
  split_ifs <;> omega

theorem deref_ok_or_efault (sizeT dataLen off n : Nat) :
    deref sizeT dataLen off n = Except.error EFAULT ∨
      deref sizeT dataLen off n = Except.ok off := by
  simp only [deref]
  split <;> simp

theorem deref_sockaddr_output_alen_misaligned (base : Nat) (data : List Nat)
    (addrOff alenOff : Nat) (h : (base + alenOff) % 4 ≠ 0) :
    deref_sockaddr_output base data addrOff alenOff = Except.error EFAULT := by
  unfold deref_sockaddr_output
  rcases deref_ok_or_efault 4 data.length alenOff 1 with hD | hD <;> simp [hD, h]

theorem deref_sockaddr_output_addr_misaligned (base : Nat) (data : List Nat)
    (addrOff alenOff : Nat) (h : (base + addrOff) % 8 ≠ 0) :
    deref_sockaddr_output base data addrOff alenOff = Except.error EFAULT := by
  unfold deref_sockaddr_output
  rcases deref_ok_or_efault 4 data.length alenOff 1 with hD | hD
  · simp [hD]
  · rcases deref_ok_or_efault 1 data.length addrOff (readLE32 data alenOff) with hD2 | hD2 <;>
      by_cases h4 : (base + alenOff) % 4 ≠ 0 <;> simp [hD, hD2, h4, h]

theorem take_chunk (v w : List Nat) (n : Nat) (hv : v.length = 8) :
    v.take (min 8 n) ++ w.take (n - 8) = (v ++ w).take n := by
  rw [List.take_append_eq_append_take, hv]
  rcases le_or_lt 8 n with hc | hc
  · have h8 : v.take 8 = v := by rw [← hv, List.take_length]
    have hn : v.take n = v := List.take_of_length_le (by omega)
    rw [min_eq_left hc, h8, hn]
  · rw [min_eq_right hc.le]

theorem grAux_complete (bufLen flags : Nat) (vs : List (List Nat)) :
    ∀ i, (∀ v ∈ vs, v.length = 8) → bufLen ≤ 8 * i + 8 * vs.length →
      grAux bufLen flags (vs.map Option.some) i =
        some (Except.ok bufLen, vs.flatten.take (bufLen - 8 * i)) := by
  induction vs with
  | nil =>
    intro i _ hle
    simp only [List.length_nil, Nat.mul_zero, Nat.add_zero] at hle
    simp only [List.map_nil, grAux, List.flatten_nil, List.take_nil]
    rw [if_neg (by omega)]
  | cons v vs ih =>
    intro i h hle
    have hv : v.length = 8 := h v (List.mem_cons_self v vs)
    have hvs : ∀ w ∈ vs, w.length = 8 := fun w hw => h w (List.mem_cons_of_mem v hw)
    have hrec := ih (i + 1) hvs (by simp only [List.length_cons] at hle; omega)
    simp only [List.map_cons, grAux]
    by_cases hi : 8 * i < bufLen
    · have harith : bufLen - 8 * (i + 1) = bufLen - 8 * i - 8 := by omega
      rw [if_pos hi, hrec, harith]
      simp [List.flatten_cons, ← take_chunk v vs.flatten (bufLen - 8 * i) hv]
    · rw [if_neg hi]
      have h0 : bufLen - 8 * i = 0 := by omega
      rw [h0]
      simp

theorem grAux_notReady (bufLen flags : Nat) (vs : List (List Nat))
    (rest : List (Option (List Nat))) :
    ∀ i, (∀ v ∈ vs, v.length = 8) → 8 * (i + vs.length) < bufLen →
      (flags &&& 1 ≠ 0 ∨ flags &&& 2 ≠ 0) →
      grAux bufLen flags (vs.map Option.some ++ Option.none :: rest) i =
        if flags &&& 1 ≠ 0 then some (Except.error EAGAIN, vs.flatten)
        else some (Except.ok (8 * (i + vs.length)), vs.flatten) := by
  induction vs with
  | nil =>
    intro i _ hlt hfl
    simp only [List.length_nil, Nat.add_zero] at hlt
    simp only [List.map_nil, List.nil_append, grAux, List.flatten_nil, List.length_nil,
      Nat.add_zero]
    rw [if_pos hlt]
    by_cases h1 : flags &&& 1 ≠ 0
    · rw [if_pos h1, if_pos h1]
    · rw [if_neg h1, if_neg h1, if_pos (hfl.resolve_left h1)]
  | cons v vs ih =>
    intro i h hlt hfl
    have hv : v.length = 8 := h v (List.mem_cons_self v vs)
    have hvs : ∀ w ∈ vs, w.length = 8 := fun w hw => h w (List.mem_cons_of_mem v hw)
    have hlen : (v :: vs).length = vs.length + 1 := List.length_cons v vs
    have hrec := ih (i + 1) hvs (by rw [hlen] at hlt; omega) hfl
    have hi : 8 * i < bufLen := by rw [hlen] at hlt; omega
    have hmin : min 8 (bufLen - 8 * i) = 8 := by rw [hlen] at hlt; omega
    have htake : v.take 8 = v := by rw [← hv, List.take_length]
    have hidx : i + 1 + vs.length = i + (v :: vs).length := by rw [hlen]; omega
    simp only [List.map_cons, List.cons_append, grAux, List.append_eq]
    by_cases h1 : flags &&& 1 ≠ 0
    · rw [if_pos hi, hrec, if_pos h1, if_pos h1]
      simp [hmin, htake, List.flatten_cons]
    · rw [if_pos hi, hrec, if_neg h1, if_neg h1, hidx]
      simp [hmin, htake, List.flatten_cons]

/-- C1: evaluation of `deref` at the failing input. The claim (and the spec)
call the bounds check wrap-free, but `len * size_of::<T>()` is unchecked
usize arithmetic: for `T = epoll_event` (size 12), `len = 2 ^ 62` and a
16-byte payload, the product `2 ^ 62 * 12 = 3 * 2 ^ 64` wraps to 0, the
check passes, and `deref` returns `Ok` at offset 0 although the slice holds
nowhere near `len` elements — contradicting `deref`'s own doc comment and
the claimed `EFAULT`. -/
theorem deref_wraps_on_huge_len :
    deref 12 16 0 (2 ^ 62) = Except.ok 0 ∧ 2 ^ 62 * 12 > 16 := by
  constructor
  · rfl
  · norm_num

/-- C2 counterexample: the bind arm performs no alignment check at all on the
sockaddr offset. With a 16-byte payload, `addr_offset = 1` (odd, hence
misaligned for `sockaddr`) and `addrlen = 4`, the dispatcher does not return
`EFAULT`: it invokes the OS bind with the misaligned pointer. -/
theorem bind_misaligned_not_rejected :
    execute_syscall 0 (List.replicate 16 0) ⟨49, 3, 1, 4, 0, 0, 0⟩ =
      Except.ok ⟨49, [3, 1, 4]⟩ ∧ (0 + 1) % 2 ≠ 0 := by
  constructor
  · rfl
  · decide

/-- C2 amended: the offsets the dispatcher does alignment-check are rejected
with `EFAULT` before any OS invocation: clock_gettime's timespec offset
(alignment 8); for each sockaddr-output pair actually taken (accept, accept4
and recvfrom with a non-NULL address, getsockname always) both the addrlen
word (socklen_t, alignment 4) and the address offset (sockaddr_storage,
alignment 8); epoll_pwait's sigset offset (alignment 8); and setsockopt's
non-NULL optval offset (usize, alignment 8). The epoll event offsets of
epoll_ctl, epoll_wait and epoll_pwait are checked only against
`align_of::<epoll_event>() = 1` on x86_64, so they are never rejected:
whenever their bounds check passes, the OS call is invoked, for every base,
i.e. at any alignment. bind's and connect's sockaddr offsets are not
alignment-checked at all: whenever the bounds check passes the OS call is
invoked with the (possibly misaligned) pointer. -/
theorem misaligned_typed_offset_efault (base : Nat) (data : List Nat)
    (s : SyscallItem) :
    (s.num = 228 → (base + s.a1) % 8 ≠ 0 →
      execute_syscall base data s = Except.error EFAULT) ∧
    (s.num = 43 → s.a1 ≠ NULL → (base + s.a2) % 4 ≠ 0 →
      execute_syscall base data s = Except.error EFAULT) ∧
    (s.num = 43 → s.a1 ≠ NULL → (base + s.a1) % 8 ≠ 0 →
      execute_syscall base data s = Except.error EFAULT) ∧
    (s.num = 288 → s.a1 ≠ NULL → (base + s.a2) % 4 ≠ 0 →
      execute_syscall base data s = Except.error EFAULT) ∧
    (s.num = 288 → s.a1 ≠ NULL → (base + s.a1) % 8 ≠ 0 →
      execute_syscall base data s = Except.error EFAULT) ∧
    (s.num = 51 → (base + s.a2) % 4 ≠ 0 →
      execute_syscall base data s = Except.error EFAULT) ∧
    (s.num = 51 → (base + s.a1) % 8 ≠ 0 →
      execute_syscall base data s = Except.error EFAULT) ∧
    (s.num = 45 → s.a4 ≠ NULL → (base + s.a5) % 4 ≠ 0 →
      execute_syscall base data s = Except.error EFAULT) ∧
    (s.num = 45 → s.a4 ≠ NULL → (base + s.a4) % 8 ≠ 0 →
      execute_syscall base data s = Except.error EFAULT) ∧
    (s.num = 281 → (base + s.a4) % 8 ≠ 0 →
      execute_syscall base data s = Except.error EFAULT) ∧
    (s.num = 54 → s.a3 ≠ NULL → (base + s.a3) % 8 ≠ 0 →
      execute_syscall base data s = Except.error EFAULT) ∧
    (s.num = 233 → deref 12 data.length s.a3 1 = Except.ok s.a3 →
      execute_syscall base data s =
        Except.ok ⟨233, [s.a0, s.a1, s.a2, base + s.a3]⟩) ∧
    (s.num = 232 → deref 12 data.length s.a1 s.a2 = Except.ok s.a1 →
      execute_syscall base data s =
        Except.ok ⟨232, [s.a0, base + s.a1, s.a2, s.a3]⟩) ∧
    (s.num = 281 → deref 12 data.length s.a1 s.a2 = Except.ok s.a1 →
      deref 128 data.length s.a4 1 = Except.ok s.a4 → (base + s.a4) % 8 = 0 →
      execute_syscall base data s =
        Except.ok ⟨281, [s.a0, base + s.a1, s.a2, s.a3, base + s.a4]⟩) ∧
    (s.num = 49 → deref 1 data.length s.a1 s.a2 = Except.ok s.a1 →
      execute_syscall base data s = Except.ok ⟨49, [s.a0, base + s.a1, s.a2]⟩) ∧
    (s.num = 42 → deref 1 data.length s.a1 s.a2 = Except.ok s.a1 →
      execute_syscall base data s = Except.ok ⟨42, [s.a0, base + s.a1, s.a2]⟩) := by
  refine ⟨?_, ?_, ?_, ?_, ?_, ?_, ?_, ?_, ?_, ?_, ?_, ?_, ?_, ?_, ?_, ?_⟩
  · intro hn ha
    simp only [execute_syscall, hn]
    norm_num
    rcases deref_ok_or_efault 16 data.length s.a1 1 with hD | hD <;> simp [hD, ha]
  · intro hn hnull ha
    simp only [execute_syscall, hn]
    norm_num
    rw [if_neg hnull, deref_sockaddr_output_alen_misaligned base data s.a1 s.a2 ha]
  · intro hn hnull ha
    simp only [execute_syscall, hn]
    norm_num
    rw [if_neg hnull, deref_sockaddr_output_addr_misaligned base data s.a1 s.a2 ha]
  · intro hn hnull ha
    simp only [execute_syscall, hn]
    norm_num
    rw [if_neg hnull, deref_sockaddr_output_alen_misaligned base data s.a1 s.a2 ha]
  · intro hn hnull ha
    simp only [execute_syscall, hn]
    norm_num
    rw [if_neg hnull, deref_sockaddr_output_addr_misaligned base data s.a1 s.a2 ha]
  · intro hn ha
    simp only [execute_syscall, hn]
    norm_num
    rw [deref_sockaddr_output_alen_misaligned base data s.a1 s.a2 ha]
  · intro hn ha
    simp only [execute_syscall, hn]
    norm_num
    rw [deref_sockaddr_output_addr_misaligned base data s.a1 s.a2 ha]
  · intro hn hnull ha
    simp only [execute_syscall, hn]
    norm_num
    rcases deref_ok_or_efault 1 data.length s.a1 s.a2 with hD | hD
    · simp [hD]
    · simp only [hD]
      rw [if_neg hnull, deref_sockaddr_output_alen_misaligned base data s.a4 s.a5 ha]
  · intro hn hnull ha
    simp only [execute_syscall, hn]
    norm_num
    rcases deref_ok_or_efault 1 data.length s.a1 s.a2 with hD | hD
    · simp [hD]
    · simp only [hD]
      rw [if_neg hnull, deref_sockaddr_output_addr_misaligned base data s.a4 s.a5 ha]
  · intro hn ha
    simp only [execute_syscall, hn]
    norm_num
    rcases deref_ok_or_efault 12 data.length s.a1 s.a2 with hD | hD
    · simp [hD]
    · rcases deref_ok_or_efault 128 data.length s.a4 1 with hD2 | hD2 <;>
        simp [hD, hD2, ha, Nat.mod_one]
  · intro hn hnull ha
    simp only [execute_syscall, hn]
    norm_num
    rw [if_neg hnull]
    rcases deref_ok_or_efault 1 data.length s.a3 s.a4 with hD | hD <;> simp [hD, ha]
  · intro hn hD
    simp only [execute_syscall, hn]
    norm_num
    rw [hD]
    simp [Nat.mod_one]
  · intro hn hD
    simp only [execute_syscall, hn]
    norm_num
    rw [hD]
    simp [Nat.mod_one]
  · intro hn hD hD2 ha
    simp only [execute_syscall, hn]
    norm_num
    rw [hD]
    simp [hD2, ha, Nat.mod_one]
  · intro hn hD
    simp only [execute_syscall, hn]
    norm_num
    rw [hD]
  · intro hn hD
    simp only [execute_syscall, hn]
    norm_num
    rw [hD]

/-- C2 witness: concrete instances — misaligned clock_gettime timespec,
accept addrlen, accept sockaddr, getsockname addrlen, recvfrom sockaddr and
setsockopt optval offsets are rejected with `EFAULT`; an odd epoll_ctl event
offset and an odd bind sockaddr offset pass through to an OS invocation. -/
theorem misaligned_typed_offset_efault_w :
    execute_syscall 0 [] ⟨228, 0, 1, 0, 0, 0, 0⟩ = Except.error EFAULT ∧
    execute_syscall 0 [] ⟨43, 3, 8, 1, 0, 0, 0⟩ = Except.error EFAULT ∧
    execute_syscall 0 [] ⟨43, 3, 1, 4, 0, 0, 0⟩ = Except.error EFAULT ∧
    execute_syscall 0 [] ⟨51, 3, 0, 1, 0, 0, 0⟩ = Except.error EFAULT ∧
    execute_syscall 0 [] ⟨45, 3, 0, 0, 0, 1, 8⟩ = Except.error EFAULT ∧
    execute_syscall 0 [] ⟨54, 3, 1, 2, 1, 4, 0⟩ = Except.error EFAULT ∧
    execute_syscall 0 (List.replicate 16 0) ⟨233, 1, 2, 3, 1, 0, 0⟩ =
      Except.ok ⟨233, [1, 2, 3, 1]⟩ ∧
    execute_syscall 0 (List.replicate 16 0) ⟨49, 3, 1, 4, 0, 0, 0⟩ =
      Except.ok ⟨49, [3, 1, 4]⟩ := by
  refine ⟨?_, ?_, ?_, ?_, ?_, ?_, ?_, ?_⟩
  · exact (misaligned_typed_offset_efault 0 [] ⟨228, 0, 1, 0, 0, 0, 0⟩).1 rfl (by decide)
  · exact (misaligned_typed_offset_efault 0 [] ⟨43, 3, 8, 1, 0, 0, 0⟩).2.1 rfl
      (by decide) (by decide)
  · exact (misaligned_typed_offset_efault 0 [] ⟨43, 3, 1, 4, 0, 0, 0⟩).2.2.1 rfl
      (by decide) (by decide)
  · exact (misaligned_typed_offset_efault 0 [] ⟨51, 3, 0, 1, 0, 0, 0⟩).2.2.2.2.2.1 rfl
      (by decide)
  · exact (misaligned_typed_offset_efault 0 []
      ⟨45, 3, 0, 0, 0, 1, 8⟩).2.2.2.2.2.2.2.2.1 rfl (by decide) (by decide)
  · exact (misaligned_typed_offset_efault 0 []
      ⟨54, 3, 1, 2, 1, 4, 0⟩).2.2.2.2.2.2.2.2.2.2.1 rfl (by decide) (by decide)
  · exact (misaligned_typed_offset_efault 0 (List.replicate 16 0)
      ⟨233, 1, 2, 3, 1, 0, 0⟩).2.2.2.2.2.2.2.2.2.2.2.1 rfl rfl
  · exact (misaligned_typed_offset_efault 0 (List.replicate 16 0)
      ⟨49, 3, 1, 4, 0, 0, 0⟩).2.2.2.2.2.2.2.2.2.2.2.2.2.2.1 rfl rfl

/-- C3: committing a staged syscall writes a header with kind `Syscall` and
size equal to the `item::Syscall` payload size (72 bytes) plus the staged
section's byte count rounded up to the 8-byte word alignment, followed by
the syscall number, the argv words and the sentinel return
`[-ENOSYS as usize, 0] = [2 ^ 64 - 38, 0]`. -/
theorem commit_writes_header_num_argv_sentinel (num : Nat) (argv : List Nat)
    (s : Nat) :
    commitStagedSyscall num argv (stagePaddedSize s) =
      { header := { size := syscallPayloadSize + 8 * ((s + 7) / 8)
                    kind := Kind.Syscall }
        num := num
        argv := argv
        ret := [2 ^ 64 - ENOSYS, 0] } := by
  unfold commitStagedSyscall
  rw [stagePaddedSize_eq]

/-- C5: a syscall item whose number is not among the 25 routed numbers is
rejected with `ENOSYS`; the embedding returns no `Invocation`, so no OS
syscall runs and the item's return words (still holding the pre-commit
sentinel `-ENOSYS`) are untouched. -/
theorem unknown_num_enosys (base : Nat) (data : List Nat) (s : SyscallItem)
    (h : s.num ∉ routedNums) :
    execute_syscall base data s = Except.error ENOSYS := by
  simp only [routedNums, List.mem_cons, List.not_mem_nil, or_false] at h
  push_neg at h
  obtain ⟨h1, h2, h3, h4, h5, h6, h7, h8, h9, h10, h11, h12, h13, h14, h15,
    h16, h17, h18, h19, h20, h21, h22, h23, h24, h25⟩ := h
  simp [execute_syscall, h1, h2, h3, h4, h5, h6, h7, h8, h9, h10, h11, h12,
    h13, h14, h15, h16, h17, h18, h19, h20, h21, h22, h23, h24, h25]

/-- C5 witness: syscall number 2 (open) is not routed and yields `ENOSYS`. -/
theorem unknown_num_enosys_w :
    execute_syscall 0 [] ⟨2, 0, 0, 0, 0, 0, 0⟩ = Except.error ENOSYS :=
  unknown_num_enosys 0 [] ⟨2, 0, 0, 0, 0, 0, 0⟩ (by decide)

/-- C6: the fstat stub answers the three standard descriptors with the
synthetic FIFO record (mode `S_IFIFO | 0o600`, uid 1000, gid 5, blksize
4096, atime 1579507218) and every other fd with `EBADFD`, leaving the
caller's statbuf unchanged; being a stub it never reaches the host. -/
theorem fstat_stub_contract (fd : Int) (buf : Stat) :
    (fd = 0 ∨ fd = 1 ∨ fd = 2 →
      fstat_collect fd buf = (Except.ok (), syntheticStat fd) ∧
      (syntheticStat fd).st_mode = 4096 ||| 0o600 ∧
      (syntheticStat fd).st_uid = 1000 ∧ (syntheticStat fd).st_gid = 5 ∧
      (syntheticStat fd).st_blksize = 4096 ∧
      (syntheticStat fd).st_atime = 1579507218) ∧
    (¬(fd = 0 ∨ fd = 1 ∨ fd = 2) →
      fstat_collect fd buf = (Except.error EBADFD, buf)) := by
  constructor
  · intro h
    unfold fstat_collect
    rw [if_pos h]
    simp [syntheticStat]
  · intro h
    unfold fstat_collect
    rw [if_neg h]

/-- C6 witness: stdout gets the synthetic record, fd 5 gets `EBADFD` with
the buffer unchanged. -/
theorem fstat_stub_contract_w :
    fstat_collect 1 (syntheticStat 0) = (Except.ok (), syntheticStat 1) ∧
    fstat_collect 5 (syntheticStat 0) = (Except.error EBADFD, syntheticStat 0) :=
  ⟨((fstat_stub_contract 1 (syntheticStat 0)).1 (by decide)).1,
   (fstat_stub_contract 5 (syntheticStat 0)).2 (by decide)⟩

/-- C8: clock_gettime's collect copies the block's timespec back to the
caller exactly when the host result is `Ok`; on an error the caller's
timespec is unchanged and the error is returned as-is. -/
theorem clock_gettime_collect_contract (blockTp callerTp : Timespec) (e : Nat) :
    clock_gettime_collect blockTp callerTp (Except.ok ()) =
      (Except.ok (), blockTp) ∧
    clock_gettime_collect blockTp callerTp (Except.error e) =
      (Except.error e, callerTp) :=
  ⟨rfl, rfl⟩

/-- C9: a zero-length access never faults: for any element type and any
offset up to and including `data.len()`, `deref` with `len = 0` returns
`Ok` at that offset (at `offset = data.len()` this is the one-past-the-end
position). -/
theorem deref_zero_len (sizeT dataLen off : Nat) (h : off ≤ dataLen) :
    deref sizeT dataLen off 0 = Except.ok off := by
  simp only [deref, Nat.zero_mul, Nat.zero_mod]
  rw [if_neg (by omega)]

/-- C9 witness: `deref` at the one-past-the-end offset of a 4-byte payload. -/
theorem deref_zero_len_w : deref 16 4 4 0 = Except.ok 4 :=
  deref_zero_len 16 4 4 (by decide)

/-- C4: the getrandom stub (i) rejects flag bits outside
`GRND_NONBLOCK | GRND_RANDOM` with `EINVAL`; (ii) with a ready RNG fills the
buffer in 8-byte chunks from the drawn words and returns `Ok(buf.len())`;
(iii) with `GRND_NONBLOCK` set returns `EAGAIN` when the RNG is not ready;
(iv) with only `GRND_RANDOM` set returns `Ok` with the bytes filled so far
when the RNG stops being ready mid-buffer. -/
theorem getrandom_stub_contract :
    (∀ rng bufLen flags, flags &&& 0xFFFFFFFC ≠ 0 →
      getrandom_collect rng bufLen flags = some (Except.error EINVAL, [])) ∧
    (∀ (vs : List (List Nat)) bufLen flags, flags &&& 0xFFFFFFFC = 0 →
      (∀ v ∈ vs, v.length = 8) → bufLen ≤ 8 * vs.length →
      getrandom_collect (vs.map Option.some) bufLen flags =
        some (Except.ok bufLen, vs.flatten.take bufLen)) ∧
    (∀ rest bufLen flags, flags &&& 0xFFFFFFFC = 0 → flags &&& 1 ≠ 0 →
      0 < bufLen →
      getrandom_collect (Option.none :: rest) bufLen flags =
        some (Except.error EAGAIN, [])) ∧
    (∀ (vs : List (List Nat)) rest bufLen flags, flags &&& 0xFFFFFFFC = 0 →
      flags &&& 1 = 0 → flags &&& 2 ≠ 0 → (∀ v ∈ vs, v.length = 8) →
      8 * vs.length < bufLen →
      getrandom_collect (vs.map Option.some ++ Option.none :: rest) bufLen flags =
        some (Except.ok (8 * vs.length), vs.flatten)) := by
  refine ⟨?_, ?_, ?_, ?_⟩
  · intro rng bufLen flags hm
    unfold getrandom_collect
    rw [if_pos hm]
  · intro vs bufLen flags hm hv hle
    unfold getrandom_collect
    rw [if_neg (by simp [hm])]
    have := grAux_complete bufLen flags vs 0 hv (by omega)
    simpa using this
  · intro rest bufLen flags hm h1 hb
    unfold getrandom_collect
    rw [if_neg (by simp [hm])]
    have := grAux_notReady bufLen flags [] rest 0 (by simp) (by simpa using hb)
      (Or.inl h1)
    simp only [List.map_nil, List.nil_append] at this
    rw [this, if_pos h1]
    simp
  · intro vs rest bufLen flags hm h1 h2 hv hlt
    unfold getrandom_collect
    rw [if_neg (by simp [hm])]
    have := grAux_notReady bufLen flags vs rest 0 hv (by simpa using hlt)
      (Or.inr h2)
    rw [this, if_neg (by simpa using h1)]
    simp

/-- C4 witness: the four branches of the contract at concrete inputs. -/
theorem getrandom_stub_contract_w :
    getrandom_collect [] 1 4 = some (Except.error EINVAL, []) ∧
    getrandom_collect [Option.some [1, 2, 3, 4, 5, 6, 7, 8]] 5 0 =
      some (Except.ok 5, [1, 2, 3, 4, 5]) ∧
    getrandom_collect [Option.none] 8 1 = some (Except.error EAGAIN, []) ∧
    getrandom_collect [Option.some [9, 9, 9, 9, 9, 9, 9, 9], Option.none] 16 2 =
      some (Except.ok 8, [9, 9, 9, 9, 9, 9, 9, 9]) := by
  refine ⟨getrandom_stub_contract.1 [] 1 4 (by decide), ?_, ?_, ?_⟩
  · have := getrandom_stub_contract.2.1 [[1, 2, 3, 4, 5, 6, 7, 8]] 5 0
      (by decide) (by decide) (by decide)
    simpa using this
  · exact getrandom_stub_contract.2.2.1 [] 8 1 (by decide) (by decide) (by decide)
  · have := getrandom_stub_contract.2.2.2 [[9, 9, 9, 9, 9, 9, 9, 9]] [] 16 2
      (by decide) (by decide) (by decide) (by decide) (by decide)
    simpa using this

/-- C10: with both `GRND_NONBLOCK` and `GRND_RANDOM` set, a not-ready RNG
mid-buffer yields `EAGAIN`, not the partial byte count: the `GRND_NONBLOCK`
branch is tested first, after any number of already-filled chunks (which
remain written in the caller's buffer). -/
theorem getrandom_nonblock_over_random (vs : List (List Nat))
    (rest : List (Option (List Nat))) (bufLen flags : Nat)
    (hm : flags &&& 0xFFFFFFFC = 0) (h1 : flags &&& 1 ≠ 0)
    (_h2 : flags &&& 2 ≠ 0) (hv : ∀ v ∈ vs, v.length = 8)
    (hlt : 8 * vs.length < bufLen) :
    getrandom_collect (vs.map Option.some ++ Option.none :: rest) bufLen flags =
      some (Except.error EAGAIN, vs.flatten) := by
  unfold getrandom_collect
  rw [if_neg (by simp [hm])]
  have := grAux_notReady bufLen flags vs rest 0 hv (by simpa using hlt)
    (Or.inl h1)
  rw [this, if_pos h1]

/-- C10 witness: flags 3, one chunk already filled, then a not-ready RNG. -/
theorem getrandom_nonblock_over_random_w :
    getrandom_collect [Option.some [7, 7, 7, 7, 7, 7, 7, 7], Option.none] 16 3 =
      some (Except.error EAGAIN, [7, 7, 7, 7, 7, 7, 7, 7]) := by
  have := getrandom_nonblock_over_random [[7, 7, 7, 7, 7, 7, 7, 7]] [] 16 3
    (by decide) (by decide) (by decide) (by decide) (by decide)
  simpa using this

/-- C7 counterexample: a secret whose CBOR header is BYTES with minor 27 and
big-endian length field `2 ^ 64 - 5`. The Rust sum `1 + 8 + len` wraps to 4
in usize arithmetic, so `try_len` returns `Some(4)` although the claim's
unwrapped `n = 1 + 8 + (2 ^ 64 - 5)` exceeds 16 KiB and would demand
`None`. -/
theorem try_len_wraps_on_huge_field :
    try_len secretCex = some 4 ∧
    1 + 8 + (secretCex 1 % 256 * 2 ^ 56 + secretCex 2 % 256 * 2 ^ 48 +
      secretCex 3 % 256 * 2 ^ 40 + secretCex 4 % 256 * 2 ^ 32 +
      secretCex 5 % 256 * 2 ^ 24 + secretCex 6 % 256 * 2 ^ 16 +
      secretCex 7 % 256 * 2 ^ 8 + secretCex 8 % 256) > SEV_SECRET_MAX_SIZE := by
  constructor
  · rfl
  · norm_num [secretCex, SEV_SECRET_MAX_SIZE]

/-- C7 amended: `try_len` returns `some n` exactly when the byte at offset 0
has CBOR major type 2, `n ≤ 16384`, and `n` is determined by the minor
value — `1 + minor` for minors `0..=23`, `1 + width + big-endian field` for
minors 24, 25 and 26, and, for minor 27, that sum reduced `% 2 ^ 64` (usize
wrap-around); minors `28..=31` and non-BYTES majors give `none`. -/
theorem try_len_characterization (d : Nat → Nat) (n : Nat) :
    try_len d = some n ↔
      d 0 % 256 / 32 = 2 ∧ n ≤ SEV_SECRET_MAX_SIZE ∧
      ((d 0 % 256 % 32 ≤ 23 ∧ n = 1 + d 0 % 256 % 32) ∨
       (d 0 % 256 % 32 = 24 ∧ n = 1 + 1 + d 1 % 256) ∨
       (d 0 % 256 % 32 = 25 ∧ n = 1 + 2 + (d 1 % 256 * 256 + d 2 % 256)) ∨
       (d 0 % 256 % 32 = 26 ∧ n = 1 + 4 + (d 1 % 256 * 2 ^ 24 +
         d 2 % 256 * 2 ^ 16 + d 3 % 256 * 2 ^ 8 + d 4 % 256)) ∨
       (d 0 % 256 % 32 = 27 ∧ n = (1 + 8 + (d 1 % 256 * 2 ^ 56 +
         d 2 % 256 * 2 ^ 48 + d 3 % 256 * 2 ^ 40 + d 4 % 256 * 2 ^ 32 +
         d 5 % 256 * 2 ^ 24 + d 6 % 256 * 2 ^ 16 + d 7 % 256 * 2 ^ 8 +
         d 8 % 256)) % 2 ^ 64)) := by
  unfold try_len
  rcases hC : cbor_len d with _ | m
  · simp only [cbor_len, ne_eq] at hC
    split_ifs at hC with h1 h2 h3 h4 h5 h6 <;> simp_all [SEV_SECRET_MAX_SIZE]
  · simp only [cbor_len, ne_eq] at hC
    split_ifs at hC with h1 h2 h3 h4 h5 h6 <;> simp_all [SEV_SECRET_MAX_SIZE] <;> omega
